import Mathlib

/-!
Shallow embedding of `electron-builder-notarize-pkg`.

The repository has two source modules implementing the notarization hook:
`src/index.js` (the signed-package variant, suffix `_index` below) and
`src/unnamed/part_000` (the unsigned variant, suffix `_unnamed` below).
JavaScript strings that may be `undefined` are modelled as `Option String`
(`none` = `undefined`); JS truthiness on such values is `truthy`.
External subprocess invocations (`execa`) are modelled by passing their
outcome (or a script of outcomes, for the polling loop) as an argument.
-/

namespace EBN

/-- A JavaScript string-or-undefined value (`none` = `undefined`). -/
abbrev JsStr := Option String

/-- JS truthiness for a string-or-undefined value: `undefined` and `""` are falsy. -/
def truthy : JsStr → Bool
  | none => false
  | some s => s ≠ ""

/-- Template-literal display of a string-or-undefined value, as in `${x}`. -/
def jsDisplayStr : JsStr → String
  | none => "undefined"
  | some s => s

/- ### Regex scanning primitives

The source uses regexes of the shape `\n *Lit(.+?)\n` (the ` *` part only in
`parseNotarizationInfo`; the RequestUUID regex in `startNotarizingPackage`
has no ` *`).  Since `.` does not match `\n`, the lazy group `(.+?)\n` always
captures exactly the non-empty run of non-newline characters up to the next
newline; the engine tries each start position left to right. -/

/-- Consume an exact literal from the front of a character list, returning the
remainder on success (the regex-literal part of the pattern). -/
def stripPref : List Char → List Char → Option (List Char)
  | [], cs => some cs
  | _ :: _, [] => none
  | p :: ps, c :: cs => if c = p then stripPref ps cs else none

/-- Capture of `(.+?)\n` where `.` excludes newlines: the non-empty run of
non-newline characters, which must be terminated by a newline. -/
def groupAfter (cs : List Char) : Option (List Char) :=
  let g := cs.takeWhile (fun c => c ≠ '\n')
  match cs.dropWhile (fun c => c ≠ '\n') with
  | [] => none
  | _ :: _ => if g = [] then none else some g

/-- Attempt the pattern `\n( *)?lit(.+?)\n` at the current position. -/
def matchAt (sp : Bool) (lit : List Char) : List Char → Option (List Char)
  | [] => none
  | c :: cs =>
    if c = '\n' then
      let cs1 := if sp then cs.dropWhile (fun d => d = ' ') else cs
      match stripPref lit cs1 with
      | none => none
      | some cs2 => groupAfter cs2
    else
      none

/-- Scan for the first position at which the pattern matches, returning the
captured group (the behaviour of `RegExp.exec` for these patterns). -/
def scan (sp : Bool) (lit : List Char) : List Char → Option (List Char)
  | [] => none
  | c :: cs =>
    match matchAt sp lit (c :: cs) with
    | some g => some g
    | none => scan sp lit cs

/- ### JS number parsing (`Number.parseInt(n, 10)`)

`parseInt` skips leading whitespace, accepts an optional sign, and reads the
longest leading digit run, ignoring any trailing garbage; with no digits it
returns `NaN`.  `NaN` is modelled as `none`. -/

/-- Whitespace characters skipped by `Number.parseInt`. -/
def isJsSpace (c : Char) : Bool :=
  c = ' ' ∨ c = '\t' ∨ c = '\n' ∨ c = '\r' ∨ c = '\x0b' ∨ c = '\x0c'

/-- Numeric value of a decimal digit list (most significant first). -/
def natOfDigits (ds : List Char) : Nat :=
  ds.foldl (fun a c => a * 10 + (c.toNat - '0'.toNat)) 0

/-- `Number.parseInt(s, 10)`; `none` is the `NaN` result. -/
def jsParseInt (s : List Char) : Option Int :=
  let s1 := s.dropWhile isJsSpace
  let signAndRest : Bool × List Char :=
    match s1 with
    | '-' :: r => (true, r)
    | '+' :: r => (false, r)
    | _ => (false, s1)
  let ds := signAndRest.2.takeWhile (fun c => c.isDigit)
  if ds = [] then none
  else if signAndRest.1 then some (-(natOfDigits ds : Int))
  else some ((natOfDigits ds : Int))

/- ### Response Parser (`parseNotarizationInfo`, identical in both modules) -/

/-- A JS `Date` constructed from a string; the external `Date` parsing is
opaque to this system, so the value is represented by its input string. -/
structure JsDate where
  raw : String
deriving DecidableEq

/-- The record produced by `parseNotarizationInfo`.  Each field is `none`
when the property was never assigned.  `logFileUrl`: `some none` is the
JS `null` written by the `"(null)"` normalization.  `statusCode`:
`some none` is a present field holding `NaN`. -/
structure NotarizationInfo where
  uuid : Option String := none
  date : Option JsDate := none
  status : Option String := none
  logFileUrl : Option (Option String) := none
  statusCode : Option (Option Int) := none
  statusMessage : Option String := none
deriving DecidableEq

/-- `parseNotarizationInfo`: six independent line-anchored pattern matches,
then normalization of a literal `"(null)"` log URL to `null`. -/
def parseNotarizationInfo (text : String) : NotarizationInfo :=
  let t := text.data
  { uuid := (scan true "RequestUUID: ".data t).map (fun g => String.mk g)
    date := (scan true "Date: ".data t).map (fun g => JsDate.mk (String.mk g))
    status := (scan true "Status: ".data t).map (fun g => String.mk g)
    logFileUrl :=
      match (scan true "LogFileURL: ".data t).map (fun g => String.mk g) with
      | none => none
      | some s => if s = "(null)" then some none else some (some s)
    statusCode := (scan true "Status Code: ".data t).map (fun g => jsParseInt g)
    statusMessage := (scan true "Status Message: ".data t).map (fun g => String.mk g) }

/- ### Credentials and authorizing arguments -/

/-- The `notarizeOpts` object threaded through both modules.  JS objects are
open, so one structure carries the union of the properties each module reads;
a property a module never sets stays `undefined` (`none`). -/
structure NotarizeOpts where
  appleId : JsStr := none
  appleIdPassword : JsStr := none
  appleTeamId : JsStr := none
  appleApiKey : JsStr := none
  appleApiIssuer : JsStr := none
  teamShortName : JsStr := none
deriving DecidableEq

/-- `getAuthorizingArgs` of `src/index.js`: interactive mode supplies only
username and password flags; otherwise API key and issuer flags. -/
def getAuthorizingArgs_index (o : NotarizeOpts) : List JsStr :=
  if truthy o.appleId then
    [some "--username", o.appleId, some "--password", o.appleIdPassword]
  else
    [some "--apiKey", o.appleApiKey, some "--apiIssuer", o.appleApiIssuer]

/-- `getAuthorizingArgs` of `src/unnamed/part_000`: interactive mode also
supplies the `--asc-provider` team-id flag pair. -/
def getAuthorizingArgs_unnamed (o : NotarizeOpts) : List JsStr :=
  if truthy o.appleId then
    [some "--username", o.appleId, some "--password", o.appleIdPassword,
     some "--asc-provider", o.appleTeamId]
  else
    [some "--apiKey", o.appleApiKey, some "--apiIssuer", o.appleApiIssuer]

/-- Argument list of the upload invocation (`xcrun altool --notarize-app ...`)
built by `startNotarizingPackage` in `src/index.js`. -/
def uploadArgs_index (appId pkgPath : String) (o : NotarizeOpts) : List JsStr :=
  [some "altool", some "--notarize-app", some "--primary-bundle-id", some appId,
   some "--file", some pkgPath] ++ getAuthorizingArgs_index o ++
  (if truthy o.teamShortName then [some "-itc_provider", o.teamShortName] else [])

/-- Argument list of the upload invocation built by `startNotarizingPackage`
in `src/unnamed/part_000`. -/
def uploadArgs_unnamed (appId pkgPath : String) (o : NotarizeOpts) : List JsStr :=
  [some "altool", some "--notarize-app", some "--primary-bundle-id", some appId,
   some "--file", some pkgPath] ++ getAuthorizingArgs_unnamed o ++
  (if truthy o.teamShortName then [some "-itc_provider", o.teamShortName] else [])

/- ### Submission Client (`startNotarizingPackage`, identical logic in both
modules apart from the authorizing args) -/

/-- Outcome of one external `execa` invocation: the tool's stdout on zero
exit, or the thrown error message on failure. -/
inductive ExecResult where
  | ok (stdout : String)
  | err (message : String)
deriving DecidableEq

/-- The wrapper applied by `startNotarizingPackage`'s catch block to every
error raised inside its try block. -/
def submitWrap (m : String) : String :=
  "Failed to upload app to Apple's notarization servers\n\n" ++ m

/-- The three exits of `startNotarizingPackage`: a uuid on success, the error
thrown when the uuid line is missing from successful output, and the error
thrown when the upload invocation itself failed.  In the source both failure
exits throw `Error`s whose messages are the payloads recorded here; the two
constructors record which `throw` site produced the error. -/
inductive SubmissionOutcome where
  | uuid (v : String)
  | parseFailure (message : String)
  | uploadFailure (message : String)
deriving DecidableEq

/-- `startNotarizingPackage`, given the outcome of the upload invocation:
extracts the first `\nRequestUUID = (.+?)\n` capture from stdout; a missing
match throws inside the try block and is wrapped by the catch, as is an
upload failure. -/
def startNotarizingPackage (run : ExecResult) : SubmissionOutcome :=
  match run with
  | .err m => .uploadFailure (submitWrap m)
  | .ok stdout =>
    match scan false "RequestUUID = ".data stdout.data with
    | some g => .uuid (String.mk g)
    | none =>
      .parseFailure (submitWrap ("Failed to find request UUID in output:\n\n" ++ stdout))

/- ### Status Poller (`waitForNotarize`) -/

/-- One observable action of the poller: a status query for a request id, or
a `delay(ms)` suspension. -/
inductive PollStep where
  | query (uuid : String)
  | wait (ms : Nat)
deriving DecidableEq

/-- Terminal errors thrown by the poller.  `rejected` records the three
interpolated fragments of the `invalid` error message
(`Status Code: _`, `Message: _`, `Logs: _`); `unrecognized` records the
interpolated status fragment. -/
inductive NotarizeErr where
  | rejected (codeStr msgStr logStr : String)
  | unrecognized (statusStr : String)
deriving DecidableEq

/-- The `${notarizationInfo.statusCode || 'No Code'}` fragment: absent
(`undefined`), `NaN` and `0` are all falsy. -/
def codeDisplay : Option (Option Int) → String
  | some (some n) => if n = 0 then "No Code" else toString n
  | some none => "No Code"
  | none => "No Code"

/-- The `${notarizationInfo.statusMessage || 'No Message'}` fragment. -/
def msgDisplay : Option String → String
  | some s => if s = "" then "No Message" else s
  | none => "No Message"

/-- The `${notarizationInfo.logFileUrl}` fragment: `undefined` and `null`
stringify to their JS names. -/
def logDisplay : Option (Option String) → String
  | none => "undefined"
  | some none => "null"
  | some (some s) => s

/-- The two status checks both modules run after the in-progress block:
`invalid` throws the rejection error, any status other than `success`
throws the unrecognized-status error. -/
def checkTerminal (info : NotarizationInfo) : Except NotarizeErr Unit :=
  if info.status = some "invalid" then
    .error (.rejected (codeDisplay info.statusCode) (msgDisplay info.statusMessage)
      (logDisplay info.logFileUrl))
  else if info.status ≠ some "success" then
    .error (.unrecognized (jsDisplayStr info.status))
  else
    .ok ()

/-- A scripted sequence of outcomes for successive status-query invocations. -/
abbrev Script := List ExecResult

/-- `waitForNotarize` of `src/unnamed/part_000`, driven by a script of query
outcomes and a recursion-depth fuel (`none` = the run needs more fuel or more
script than supplied).  Returns the trace of queries and delays, the call's
result, and the unconsumed script.  A query failure delays 30000 ms and
`return`s the recursive call, as does an `in progress` status. -/
def waitForNotarize_unnamed (uuid : String) : Nat → Script →
    Option (List PollStep × Except NotarizeErr Unit × Script)
  | 0, _ => none
  | _ + 1, [] => none
  | fuel + 1, r :: rest =>
    match r with
    | .err _ =>
      match waitForNotarize_unnamed uuid fuel rest with
      | none => none
      | some (tr, out, rem) => some (.query uuid :: .wait 30000 :: tr, out, rem)
    | .ok stdout =>
      let info := parseNotarizationInfo stdout
      if info.status = some "in progress" then
        match waitForNotarize_unnamed uuid fuel rest with
        | none => none
        | some (tr, out, rem) => some (.query uuid :: .wait 30000 :: tr, out, rem)
      else
        some ([.query uuid], checkTerminal info, rest)

/-- `waitForNotarize` of `src/index.js`.  Identical except in the
`in progress` branch: the recursive call is awaited but NOT returned, so when
the inner call resolves the outer frame falls through to the two status
checks on its own (still `in progress`) parse result; an inner rejection
propagates through the `await`. -/
def waitForNotarize_index (uuid : String) : Nat → Script →
    Option (List PollStep × Except NotarizeErr Unit × Script)
  | 0, _ => none
  | _ + 1, [] => none
  | fuel + 1, r :: rest =>
    match r with
    | .err _ =>
      match waitForNotarize_index uuid fuel rest with
      | none => none
      | some (tr, out, rem) => some (.query uuid :: .wait 30000 :: tr, out, rem)
    | .ok stdout =>
      let info := parseNotarizationInfo stdout
      if info.status = some "in progress" then
        match waitForNotarize_index uuid fuel rest with
        | none => none
        | some (tr, out, rem) =>
          match out with
          | .error e => some (.query uuid :: .wait 30000 :: tr, .error e, rem)
          | .ok () => some (.query uuid :: .wait 30000 :: tr, checkTerminal info, rem)
      else
        some ([.query uuid], checkTerminal info, rest)

/- ### Credential validation (`getAuthInfo`) -/

/-- The environment variables the two `getAuthInfo` variants read. -/
structure Env where
  APPLE_ID : JsStr := none
  APPLE_ID_PASSWORD : JsStr := none
  APPLE_TEAM_ID : JsStr := none
  API_KEY_ID : JsStr := none
  API_KEY_ISSUER_ID : JsStr := none
  TEAM_SHORT_NAME : JsStr := none
  PSC_NAME : JsStr := none
deriving DecidableEq

/-- The record returned by `getAuthInfo` in `src/index.js`. -/
structure AuthInfoIndex where
  appleId : JsStr
  appleIdPassword : JsStr
  appleApiKey : JsStr
  appleApiIssuer : JsStr
  teamShortName : JsStr
  productSignCertificateName : JsStr
deriving DecidableEq

/-- The record returned by `getAuthInfo` in `src/unnamed/part_000`. -/
structure AuthInfoUnnamed where
  appleId : JsStr
  appleIdPassword : JsStr
  appleTeamId : JsStr
  appleApiKey : JsStr
  appleApiIssuer : JsStr
  teamShortName : JsStr
deriving DecidableEq

/-- `getAuthInfo` of `src/index.js`: requires `PSC_NAME`, then validates the
two mutually exclusive credential variants. -/
def getAuthInfo_index (env : Env) : Except String AuthInfoIndex :=
  let appleId := env.APPLE_ID
  let appleIdPassword := env.APPLE_ID_PASSWORD
  let appleApiKey := env.API_KEY_ID
  let appleApiIssuer := env.API_KEY_ISSUER_ID
  if ¬ truthy env.PSC_NAME then
    .error "PSC_NAME is required for product signing."
  else if ¬ truthy appleId ∧ ¬ truthy appleIdPassword ∧
      ¬ truthy appleApiKey ∧ ¬ truthy appleApiIssuer then
    .error ("Authentication environment variables for notarization are missing. Either APPLE_ID and " ++
      "APPLE_ID_PASSWORD, or API_KEY_ID and API_KEY_ISSUER_ID must be defined.")
  else if (truthy appleId ∨ truthy appleIdPassword) ∧
      (truthy appleApiKey ∨ truthy appleApiIssuer) then
    .error "Should only provide either Apple ID or API key environment variables."
  else if (truthy appleId ∧ ¬ truthy appleIdPassword) ∨
      (¬ truthy appleId ∧ truthy appleIdPassword) then
    .error "One of APPLE_ID and APPLE_ID_PASSWORD environment variables is missing for notarization."
  else if (truthy appleApiKey ∧ ¬ truthy appleApiIssuer) ∨
      (¬ truthy appleApiKey ∧ truthy appleApiIssuer) then
    .error "One of API_KEY_ID and API_KEY_ISSUER_ID environment variables is missing for notarization."
  else
    .ok { appleId, appleIdPassword, appleApiKey, appleApiIssuer,
          teamShortName := env.TEAM_SHORT_NAME,
          productSignCertificateName := env.PSC_NAME }

/-- `getAuthInfo` of `src/unnamed/part_000`.  Its third check requires
`APPLE_ID`, `APPLE_ID_PASSWORD` and `APPLE_TEAM_ID` unconditionally. -/
def getAuthInfo_unnamed (env : Env) : Except String AuthInfoUnnamed :=
  let appleId := env.APPLE_ID
  let appleIdPassword := env.APPLE_ID_PASSWORD
  let appleTeamId := env.APPLE_TEAM_ID
  let appleApiKey := env.API_KEY_ID
  let appleApiIssuer := env.API_KEY_ISSUER_ID
  if ¬ truthy appleId ∧ ¬ truthy appleIdPassword ∧
      ¬ truthy appleApiKey ∧ ¬ truthy appleApiIssuer then
    .error ("Authentication environment variables for notarization are missing. Either APPLE_ID and " ++
      "APPLE_ID_PASSWORD, or API_KEY_ID and API_KEY_ISSUER_ID must be defined.")
  else if (truthy appleId ∨ truthy appleIdPassword ∨ truthy appleTeamId) ∧
      (truthy appleApiKey ∨ truthy appleApiIssuer) then
    .error "Should only provide either Apple ID or API key environment variables."
  else if ¬ truthy appleId ∨ ¬ truthy appleIdPassword ∨ ¬ truthy appleTeamId then
    .error "One of APPLE_ID, APPLE_ID_PASSWORD, and APPLE_TEAM_ID environment variables is missing for notarization."
  else if (truthy appleApiKey ∧ ¬ truthy appleApiIssuer) ∨
      (¬ truthy appleApiKey ∧ truthy appleApiIssuer) then
    .error "One of API_KEY_ID and API_KEY_ISSUER_ID environment variables is missing for notarization."
  else
    .ok { appleId, appleIdPassword, appleTeamId, appleApiKey, appleApiIssuer,
          teamShortName := env.TEAM_SHORT_NAME }

/- ### Signing-Request Client and the signed-variant rename sequence -/

/-- Contents of a file: the raw bytes it was created with, or the output the
signing tool writes for a given certificate and source contents. -/
inductive FileData where
  | raw (bytes : String)
  | signed (cert : String) (orig : FileData)
deriving DecidableEq

/-- The local filesystem: path to contents. -/
def FS : Type := String → Option FileData

/-- Point update of the filesystem. -/
def fsSet (fs : FS) (p : String) (v : Option FileData) : FS :=
  fun q => if q = p then v else fs q

/-- `fs.renameSync(src, dst)`: fails when the source is missing, else moves
the contents. -/
def renameSync (fs : FS) (src dst : String) : Option FS :=
  match fs src with
  | none => none
  | some b => some (fsSet (fsSet fs dst (some b)) src none)

/-- Modelled from the spec: the external `productsign` tool (§4.1/§6), absent
from src/.  Given `['--sign', identity, src, dst]` with all arguments actual
strings, it writes a signed copy of the source at the destination; with a
missing source file or non-string (`undefined`) arguments the invocation
fails. -/
def productsignRun (fs : FS) : List JsStr → Option FS
  | [some flag, some cert, some src, some dst] =>
    if flag = "--sign" then
      match fs src with
      | none => none
      | some b => some (fsSet fs dst (some (.signed cert b)))
    else none
  | _ => none

/-- The value passed as `signPackage`'s single parameter.  The function
declares `({productSignCertificateName, pkgPath, signedPath})`, so the
parameter is destructured as an object; the orchestrator in `src/index.js`
passes three positional arguments, so the parameter is bound to the first
one — the certificate-name string. -/
inductive JsVal where
  | str (s : String)
  | obj (productSignCertificateName pkgPath signedPath : JsStr)
deriving DecidableEq

/-- Destructuring `{productSignCertificateName, pkgPath, signedPath}` from a
JS value: an object yields its properties; a string has none of these
properties, so each binds to `undefined`. -/
def destructureSignOpts : JsVal → JsStr × JsStr × JsStr
  | .str _ => (none, none, none)
  | .obj c p s => (c, p, s)

/-- `signPackage`: destructures its parameter, invokes `productsign` with
`['--sign', cert, pkgPath, signedPath]`, and wraps any failure in
`Failed to sign ${pkgPath}`. -/
def signPackage (arg : JsVal) (fs : FS) : Except String FS :=
  let cps := destructureSignOpts arg
  match productsignRun fs [some "--sign", cps.1, cps.2.1, cps.2.2] with
  | some fs1 => .ok fs1
  | none => .error ("Failed to sign " ++ jsDisplayStr cps.2.1 ++ "\n\nsigning tool failed")

/-- The derived artifact paths of the signed variant: `path.parse` splits
`dir/name.pkg` into `dir` and `name`, and `path.resolve(dir, base)` joins
them back. -/
def pkgPathOf (dir name : String) : String := dir ++ "/" ++ name ++ ".pkg"

/-- The `-signed.pkg` destination path. -/
def signedPathOf (dir name : String) : String := dir ++ "/" ++ name ++ "-signed.pkg"

/-- The `-unsigned.pkg` backup path. -/
def unsignedPathOf (dir name : String) : String := dir ++ "/" ++ name ++ "-unsigned.pkg"

/-- The sign-then-swap stage of `module.exports` in `src/index.js`:
`signPackage(productSignCertificateName, pkgPath, signedPath)` — three
positional arguments, of which only the first binds to the destructured
parameter — then the two renames. -/
def orchestratorSignStage (cert dir name : String) (fs : FS) : Except String FS :=
  match signPackage (.str cert) fs with
  | .error e => .error e
  | .ok fs1 =>
    match renameSync fs1 (pkgPathOf dir name) (unsignedPathOf dir name) with
    | none => .error "rename failed"
    | some fs2 =>
      match renameSync fs2 (signedPathOf dir name) (pkgPathOf dir name) with
      | none => .error "rename failed"
      | some fs3 => .ok fs3

/-- The same stage with the call the function's own signature (and the spec)
prescribe: `signPackage({productSignCertificateName, pkgPath, signedPath})`. -/
def orchestratorSignStageFixed (cert dir name : String) (fs : FS) : Except String FS :=
  match signPackage (.obj (some cert) (some (pkgPathOf dir name))
      (some (signedPathOf dir name))) fs with
  | .error e => .error e
  | .ok fs1 =>
    match renameSync fs1 (pkgPathOf dir name) (unsignedPathOf dir name) with
    | none => .error "rename failed"
    | some fs2 =>
      match renameSync fs2 (signedPathOf dir name) (pkgPathOf dir name) with
      | none => .error "rename failed"
      | some fs3 => .ok fs3

/- ### Helper lemmas about the scanning primitives -/

theorem stripPref_sound : ∀ (p l r : List Char), stripPref p l = some r → l = p ++ r
  | [], l, r, h => by
    simp only [stripPref, Option.some.injEq] at h
    simp [h]
  | _ :: _, [], _, h => by simp [stripPref] at h
  | p :: ps, c :: cs, r, h => by
    by_cases hc : c = p
    · subst hc
      have := stripPref_sound ps cs r (by simpa [stripPref] using h)
      simp [this]
    · simp [stripPref, hc] at h

theorem stripPref_self : ∀ (p r : List Char), stripPref p (p ++ r) = some r
  | [], _ => rfl
  | p :: ps, r => by simp [stripPref, stripPref_self ps r]

theorem stripPref_cross (lit : List Char) (hlit : ∀ c ∈ lit, c ≠ '\n') :
    ∀ (l rest : List Char),
      stripPref lit (l ++ '\n' :: rest) = (stripPref lit l).map (fun r => r ++ '\n' :: rest) := by
  induction lit with
  | nil => intro l rest; simp [stripPref]
  | cons p ps ih =>
    intro l rest
    cases l with
    | nil =>
      have hp : p ≠ '\n' := hlit p (by simp)
      show stripPref (p :: ps) ('\n' :: rest) = none
      simp only [stripPref]
      rw [if_neg (fun h => hp h.symm)]
    | cons c cs =>
      by_cases hc : c = p
      · subst hc
        simpa [stripPref] using ih (fun d hd => hlit d (by simp [hd])) cs rest
      · simp [stripPref, hc]

theorem dropWhile_boundary {p : Char → Bool} {y : Char} (hy : p y = false) :
    ∀ (xs ys : List Char), (xs ++ y :: ys).dropWhile p = xs.dropWhile p ++ y :: ys := by
  intro xs ys
  induction xs with
  | nil => simp [List.dropWhile, hy]
  | cons x xs ih =>
    by_cases hx : p x
    · simpa [List.dropWhile, hx] using ih
    · simp [List.dropWhile, hx]

theorem dropWhile_all_nil {p : Char → Bool} :
    ∀ (xs : List Char), (∀ c ∈ xs, p c = true) → xs.dropWhile p = [] := by
  intro xs h
  induction xs with
  | nil => rfl
  | cons x xs ih =>
    have hx := h x (by simp)
    simpa [List.dropWhile, hx] using ih (fun c hc => h c (by simp [hc]))

theorem takeWhile_boundary {p : Char → Bool} {y : Char} (hy : p y = false) :
    ∀ (xs ys : List Char), (∀ c ∈ xs, p c = true) → (xs ++ y :: ys).takeWhile p = xs := by
  intro xs ys h
  induction xs with
  | nil => simp [List.takeWhile, hy]
  | cons x xs ih =>
    have hx := h x (by simp)
    simpa [List.takeWhile, hx] using ih (fun c hc => h c (by simp [hc]))

theorem mem_of_mem_dropWhile {p : Char → Bool} :
    ∀ (l : List Char) (c : Char), c ∈ l.dropWhile p → c ∈ l := by
  intro l c
  induction l with
  | nil => simp [List.dropWhile]
  | cons x xs ih =>
    by_cases hx : p x
    · intro h
      exact List.mem_cons_of_mem x (ih (by simpa [List.dropWhile, hx] using h))
    · simp [List.dropWhile, hx]

theorem dropWhile_head_false {p : Char → Bool} :
    ∀ (l : List Char) (y : Char) (ys : List Char), l.dropWhile p = y :: ys → p y = false := by
  intro l
  induction l with
  | nil => intro y ys h; simp [List.dropWhile] at h
  | cons x xs ih =>
    intro y ys h
    by_cases hx : p x
    · exact ih y ys (by simpa [List.dropWhile, hx] using h)
    · simp only [List.dropWhile, hx] at h
      injection h with h1 _
      rw [← h1]
      simpa using hx

theorem groupAfter_line {g : List Char} (hg : ∀ c ∈ g, c ≠ '\n') (rest : List Char) :
    groupAfter (g ++ '\n' :: rest) = if g = [] then none else some g := by
  have hg' : ∀ c ∈ g, (fun c => decide (c ≠ '\n')) c = true := by
    intro c hc; simpa using hg c hc
  have hnl : (fun c => decide (c ≠ '\n')) '\n' = false := by simp
  unfold groupAfter
  rw [takeWhile_boundary hnl g rest hg', dropWhile_boundary hnl g rest,
    dropWhile_all_nil g hg']
  simp

/- ### Scanning a newline-delimited document line by line -/

/-- What the pattern `\n( *)?lit(.+?)\n` yields when tried at the start of a
single newline-free line: strip the optional spaces and the literal, and
capture the non-empty remainder of the line. -/
def lineMatch (sp : Bool) (lit l : List Char) : Option (List Char) :=
  let l1 := if sp then l.dropWhile (fun d => d = ' ') else l
  match stripPref lit l1 with
  | none => none
  | some r => if r = [] then none else some r

/-- A text of the form `\nl1\nl2...\nlk\n` built from newline-free lines. -/
def docJoin : List (List Char) → List Char
  | [] => ['\n']
  | l :: ls => '\n' :: (l ++ docJoin ls)

/-- First defined element of a list of optional values. -/
def firstSome {α : Type} : List (Option α) → Option α
  | [] => none
  | some a :: _ => some a
  | none :: rest => firstSome rest

theorem matchAt_line {sp : Bool} {lit l : List Char} (rest : List Char)
    (hlit : ∀ c ∈ lit, c ≠ '\n') (hl : ∀ c ∈ l, c ≠ '\n') :
    matchAt sp lit ('\n' :: (l ++ '\n' :: rest)) = lineMatch sp lit l := by
  have hdrop : (if sp then (l ++ '\n' :: rest).dropWhile (fun d => d = ' ')
      else l ++ '\n' :: rest) =
      (if sp then l.dropWhile (fun d => d = ' ') else l) ++ '\n' :: rest := by
    cases sp
    · simp
    · simpa using @dropWhile_boundary (fun d => decide (d = ' ')) '\n' (by decide) l rest
  have hl1 : ∀ c ∈ (if sp then l.dropWhile (fun d => d = ' ') else l), c ≠ '\n' := by
    cases sp
    · simpa using hl
    · intro c hc
      exact hl c (mem_of_mem_dropWhile l c (by simpa using hc))
  show (match stripPref lit (if sp then (l ++ '\n' :: rest).dropWhile (fun d => d = ' ')
        else l ++ '\n' :: rest) with
      | none => none
      | some cs2 => groupAfter cs2) = lineMatch sp lit l
  rw [hdrop, stripPref_cross lit hlit]
  have hlm : lineMatch sp lit l =
      match stripPref lit (if sp then l.dropWhile (fun d => d = ' ') else l) with
      | none => none
      | some r => if r = [] then none else some r := rfl
  rw [hlm]
  cases hsp : stripPref lit (if sp then l.dropWhile (fun d => d = ' ') else l) with
  | none => rfl
  | some r =>
    have hr : ∀ c ∈ r, c ≠ '\n' := by
      intro c hc
      have := stripPref_sound lit _ r hsp
      exact hl1 c (this ▸ List.mem_append_right lit hc)
    simp only [Option.map_some']
    exact groupAfter_line hr rest

theorem scan_skip {sp : Bool} {lit : List Char} :
    ∀ (xs rest : List Char), (∀ c ∈ xs, c ≠ '\n') →
      scan sp lit (xs ++ rest) = scan sp lit rest := by
  intro xs
  induction xs with
  | nil => intro rest _; rfl
  | cons x xs ih =>
    intro rest hx
    have hxn : x ≠ '\n' := hx x (by simp)
    show (match matchAt sp lit (x :: (xs ++ rest)) with
      | some g => some g
      | none => scan sp lit (xs ++ rest)) = scan sp lit rest
    have hm : matchAt sp lit (x :: (xs ++ rest)) = none := by
      show (if x = '\n'
          then (match stripPref lit (if sp then (xs ++ rest).dropWhile (fun d => d = ' ')
              else xs ++ rest) with
            | none => none
            | some cs2 => groupAfter cs2)
          else none) = none
      rw [if_neg hxn]
    rw [hm]
    exact ih rest (fun c hc => hx c (by simp [hc]))

theorem scan_doc (sp : Bool) (lit : List Char) (hlit : ∀ c ∈ lit, c ≠ '\n') :
    ∀ (lines : List (List Char)), (∀ l ∈ lines, ∀ c ∈ l, c ≠ '\n') →
      scan sp lit (docJoin lines) = firstSome (lines.map (lineMatch sp lit)) := by
  intro lines
  induction lines with
  | nil =>
    intro _
    show scan sp lit ['\n'] = none
    cases sp <;> cases lit <;> rfl
  | cons l ls ih =>
    intro hlines
    have hl : ∀ c ∈ l, c ≠ '\n' := hlines l (by simp)
    obtain ⟨t, ht⟩ : ∃ t, docJoin ls = '\n' :: t := by
      cases ls
      · exact ⟨[], rfl⟩
      · exact ⟨_, rfl⟩
    show (match matchAt sp lit ('\n' :: (l ++ docJoin ls)) with
      | some g => some g
      | none => scan sp lit (l ++ docJoin ls)) = firstSome ((l :: ls).map (lineMatch sp lit))
    rw [ht, matchAt_line t hlit hl]
    cases hm : lineMatch sp lit l with
    | some g => simp [firstSome, hm]
    | none =>
      show scan sp lit (l ++ '\n' :: t) = firstSome ((l :: ls).map (lineMatch sp lit))
      rw [scan_skip l ('\n' :: t) hl, ← ht,
        ih (fun l' hl' => hlines l' (by simp [hl']))]
      simp [firstSome, hm]

/- ### Soundness of the scan: a match implies the newline-delimited shape -/

theorem groupAfter_sound : ∀ (l g : List Char), groupAfter l = some g →
    ∃ post, l = g ++ '\n' :: post := by
  intro l g h
  unfold groupAfter at h
  cases hd : l.dropWhile (fun c => c ≠ '\n') with
  | nil => rw [hd] at h; exact absurd h (by simp)
  | cons y ys =>
    rw [hd] at h
    replace h : (if l.takeWhile (fun c => c ≠ '\n') = [] then none
        else some (l.takeWhile (fun c => c ≠ '\n'))) = some g := h
    by_cases hg : l.takeWhile (fun c => c ≠ '\n') = []
    · rw [if_pos hg] at h; exact absurd h (by simp)
    · rw [if_neg hg] at h
      have hgg : l.takeWhile (fun c => c ≠ '\n') = g := by simpa using h
      have hy : y = '\n' := by
        have := dropWhile_head_false l y ys hd
        simpa using this
      refine ⟨ys, ?_⟩
      rw [← List.takeWhile_append_dropWhile (p := fun c => decide (c ≠ '\n')) (l := l)]
      rw [hgg, hd, hy]

theorem matchAt_sound {lit : List Char} :
    ∀ (cs g : List Char), matchAt false lit cs = some g →
      ∃ post, cs = '\n' :: (lit ++ (g ++ '\n' :: post)) := by
  intro cs g h
  cases cs with
  | nil => exact absurd h (by simp [matchAt])
  | cons c cs =>
    by_cases hc : c = '\n'
    · subst hc
      have h' : (match stripPref lit cs with
          | none => none
          | some cs2 => groupAfter cs2) = some g := h
      cases hsp : stripPref lit cs with
      | none => rw [hsp] at h'; exact absurd h' (by simp)
      | some cs2 =>
        rw [hsp] at h'
        obtain ⟨post, hpost⟩ := groupAfter_sound cs2 g h'
        exact ⟨post, by rw [stripPref_sound lit cs cs2 hsp, hpost]⟩
    · have : matchAt false lit (c :: cs) = none := by
        show (if c = '\n'
            then (match stripPref lit cs with
              | none => none
              | some cs2 => groupAfter cs2)
            else none) = none
        rw [if_neg hc]
      rw [this] at h
      exact absurd h (by simp)

theorem scan_sound {lit : List Char} :
    ∀ (cs g : List Char), scan false lit cs = some g →
      ∃ pre post, cs = pre ++ '\n' :: (lit ++ (g ++ '\n' :: post)) := by
  intro cs
  induction cs with
  | nil => intro g h; exact absurd h (by simp [scan])
  | cons c cs ih =>
    intro g h
    have h' : (match matchAt false lit (c :: cs) with
        | some gg => some gg
        | none => scan false lit cs) = some g := h
    cases hm : matchAt false lit (c :: cs) with
    | some g' =>
      rw [hm] at h'
      have hg : g' = g := by simpa using h'
      subst hg
      obtain ⟨post, hpost⟩ := matchAt_sound (c :: cs) g' hm
      exact ⟨[], post, by simpa using hpost⟩
    | none =>
      rw [hm] at h'
      obtain ⟨pre, post, hp⟩ := ih g h'
      exact ⟨c :: pre, post, by simp [hp]⟩

/- ### The unconditional retry of the Status Poller -/

/-- The trace contributed by `n` consecutive failed queries: each is a query
for the same identifier followed by the fixed 30-second delay. -/
def retrySteps (uuid : String) : Nat → List PollStep
  | 0 => []
  | n + 1 => .query uuid :: .wait 30000 :: retrySteps uuid n

theorem waitRetry_unnamed : ∀ (msgs : List String) (uuid : String) (fuel : Nat) (script : Script),
    waitForNotarize_unnamed uuid (fuel + msgs.length) (msgs.map ExecResult.err ++ script) =
      (waitForNotarize_unnamed uuid fuel script).map
        (fun p => (retrySteps uuid msgs.length ++ p.1, p.2)) := by
  intro msgs
  induction msgs with
  | nil =>
    intro uuid fuel script
    show waitForNotarize_unnamed uuid fuel script =
      (waitForNotarize_unnamed uuid fuel script).map
        (fun p => (retrySteps uuid 0 ++ p.1, p.2))
    cases waitForNotarize_unnamed uuid fuel script <;> rfl
  | cons m ms ih =>
    intro uuid fuel script
    show waitForNotarize_unnamed uuid ((fuel + ms.length) + 1)
        (.err m :: (ms.map ExecResult.err ++ script)) = _
    have step : waitForNotarize_unnamed uuid ((fuel + ms.length) + 1)
        (.err m :: (ms.map ExecResult.err ++ script)) =
        match waitForNotarize_unnamed uuid (fuel + ms.length) (ms.map ExecResult.err ++ script) with
        | none => none
        | some (tr, out, rem) => some (.query uuid :: .wait 30000 :: tr, out, rem) := rfl
    rw [step, ih]
    cases waitForNotarize_unnamed uuid fuel script with
    | none => rfl
    | some p => rfl

theorem waitRetry_index : ∀ (msgs : List String) (uuid : String) (fuel : Nat) (script : Script),
    waitForNotarize_index uuid (fuel + msgs.length) (msgs.map ExecResult.err ++ script) =
      (waitForNotarize_index uuid fuel script).map
        (fun p => (retrySteps uuid msgs.length ++ p.1, p.2)) := by
  intro msgs
  induction msgs with
  | nil =>
    intro uuid fuel script
    show waitForNotarize_index uuid fuel script =
      (waitForNotarize_index uuid fuel script).map
        (fun p => (retrySteps uuid 0 ++ p.1, p.2))
    cases waitForNotarize_index uuid fuel script <;> rfl
  | cons m ms ih =>
    intro uuid fuel script
    show waitForNotarize_index uuid ((fuel + ms.length) + 1)
        (.err m :: (ms.map ExecResult.err ++ script)) = _
    have step : waitForNotarize_index uuid ((fuel + ms.length) + 1)
        (.err m :: (ms.map ExecResult.err ++ script)) =
        match waitForNotarize_index uuid (fuel + ms.length) (ms.map ExecResult.err ++ script) with
        | none => none
        | some (tr, out, rem) => some (.query uuid :: .wait 30000 :: tr, out, rem) := rfl
    rw [step, ih]
    cases waitForNotarize_index uuid fuel script with
    | none => rfl
    | some p => rfl

/- ### Concrete inputs used by the claim theorems -/

/-- A status-query stdout whose parsed status is `in progress`. -/
def inProgressText : String := "\nStatus: in progress\n"

/-- A status-query stdout whose parsed status is `success`. -/
def successText : String := "\nStatus: success\n"

/-- The scripted response sequence in-progress, in-progress, success. -/
def scriptC1 : Script := [.ok inProgressText, .ok inProgressText, .ok successText]

/-- An `invalid` response whose status code is `0`. -/
def invalidZeroText : String :=
  "\nStatus: invalid\nStatus Code: 0\nStatus Message: Oops\nLogFileURL: https://log.example/x\n"

/-- The claim's `invalid` response: status code `2`, message `Package Invalid`. -/
def invalidTwoText : String :=
  "\nStatus: invalid\nStatus Code: 2\nStatus Message: Package Invalid\nLogFileURL: https://log.example/x\n"

/-- A synthetic response carrying all six recognized fields, with log URL
`(null)` and an integer status code. -/
def roundTripText : String :=
  "\nRequestUUID: abc-123\nDate: 2019-09-19 19:50:00 +0000\nStatus: success\nLogFileURL: (null)\nStatus Code: 7\nStatus Message: Package Approved\n"

/-- A response whose `Status Code:` line carries a non-numeric value. -/
def notIntText : String :=
  "\nStatus: invalid\nStatus Code: NOTANUMBER\nStatus Message: mmm\n"

/-- Upload stdout whose fields parse but which has no RequestUUID line. -/
def fieldsNoUuidText : String := "\nStatus: success\nStatus Code: 7\n"

/-- The lines of the synthetic response used for the amended C5 statement:
all fixed except the value of the `Status Code:` line. -/
def scTemplateLines (v : String) : List (List Char) :=
  ["RequestUUID: r-1".data, "Date: today".data, "Status: invalid".data,
   "LogFileURL: (null)".data, "Status Code: ".data ++ v.data]

/-- The synthetic response text with status-code value `v`. -/
def scTemplate (v : String) : String := String.mk (docJoin (scTemplateLines v))

/-- An environment defining exactly the service-account credential fields
(plus the certificate the signed variant always requires). -/
def serviceEnv : Env :=
  { API_KEY_ID := some "key-1", API_KEY_ISSUER_ID := some "iss-1", PSC_NAME := some "Cert" }

/-- Interactive-account credentials with a team short name. -/
def interactiveOpts : NotarizeOpts :=
  { appleId := some "user@example.com", appleIdPassword := some "pw",
    appleTeamId := some "TEAM1", teamShortName := some "short" }

/-- A filesystem holding exactly the original artifact. -/
def fsSingle : FS := fsSet (fun _ => none) "/b/app.pkg" (some (.raw "BYTES"))

/-- The interactive-account argument set of the signed variant's
authorizing-args function (no provider flag). -/
def interactiveArgsIndexSpec (o : NotarizeOpts) : List JsStr :=
  [some "--username", o.appleId, some "--password", o.appleIdPassword]

/-- The interactive-account argument set of the unsigned variant's
authorizing-args function (with the `--asc-provider` pair). -/
def interactiveArgsUnnamedSpec (o : NotarizeOpts) : List JsStr :=
  [some "--username", o.appleId, some "--password", o.appleIdPassword,
   some "--asc-provider", o.appleTeamId]

/-- The service-account argument set (identical in both variants). -/
def apiArgsSpec (o : NotarizeOpts) : List JsStr :=
  [some "--apiKey", o.appleApiKey, some "--apiIssuer", o.appleApiIssuer]

/-- Credentials with the team short name removed. -/
def dropTeamShortName (o : NotarizeOpts) : NotarizeOpts := { o with teamShortName := none }

theorem truthy_none : truthy none = false := rfl

/- ### Claim theorems -/

/-- C1: on the scripted responses in-progress, in-progress, success the
poller performs exactly three queries with the fixed 30-second wait between
consecutive queries.  The unsigned module's `waitForNotarize` (which
`return`s the recursive call) resolves successfully, propagating the
innermost poll's result; the signed module's (`src/index.js`, which awaits
the recursive call without returning it) instead falls through its status
checks and rejects with the unrecognized-status error for "in progress",
contradicting the claim's required outer success. -/
theorem claim_C1 :
    waitForNotarize_unnamed "u-1" 3 scriptC1 =
      some ([.query "u-1", .wait 30000, .query "u-1", .wait 30000, .query "u-1"],
        Except.ok (), []) ∧
    waitForNotarize_index "u-1" 3 scriptC1 =
      some ([.query "u-1", .wait 30000, .query "u-1", .wait 30000, .query "u-1"],
        Except.error (.unrecognized "in progress"), []) :=
  ⟨rfl, rfl⟩

/-- C2: `src/index.js` calls `signPackage(productSignCertificateName,
pkgPath, signedPath)` positionally while `signPackage` destructures a single
options object, so the destructured fields are all `undefined`, the signing
tool is never invoked with the certificate identity and paths, and the stage
always fails before the renames (first and second conjuncts).  With the call
the function's signature prescribes, the run ends with the signed bytes at
the original path and the pre-signing bytes at the `-unsigned.pkg` path
(third conjunct), which is what the claim requires. -/
theorem claim_C2 :
    (∀ (cert dir name : String) (fs : FS),
      orchestratorSignStage cert dir name fs =
        .error "Failed to sign undefined\n\nsigning tool failed") ∧
    (∀ c : String, destructureSignOpts (.str c) = (none, none, none)) ∧
    (orchestratorSignStageFixed "DevID" "/b" "app" fsSingle).toOption.map
      (fun fs => (fs "/b/app.pkg", fs "/b/app-unsigned.pkg")) =
      some (some (.signed "DevID" (.raw "BYTES")), some (.raw "BYTES")) :=
  ⟨fun _ _ _ _ => rfl, fun _ => rfl, rfl⟩

/-- C3: an environment defining exactly the service-account fields (plus the
certificate name the signed variant requires) passes `getAuthInfo` in
`src/index.js` and yields the service-account variant with the
interactive-account fields undefined — but `getAuthInfo` in
`src/unnamed/part_000` rejects the same credentials because its third check
demands `APPLE_ID`, `APPLE_ID_PASSWORD` and `APPLE_TEAM_ID` unconditionally,
contradicting its own first error message. -/
theorem claim_C3 :
    getAuthInfo_index serviceEnv =
      .ok { appleId := none, appleIdPassword := none, appleApiKey := some "key-1",
            appleApiIssuer := some "iss-1", teamShortName := none,
            productSignCertificateName := some "Cert" } ∧
    getAuthInfo_unnamed serviceEnv =
      .error "One of APPLE_ID, APPLE_ID_PASSWORD, and APPLE_TEAM_ID environment variables is missing for notarization." :=
  ⟨rfl, rfl⟩

/-- C4: when the upload invocation succeeds but its stdout has no
`RequestUUID = ...` match, `startNotarizingPackage` exits through the
missing-identifier throw site (`parseFailure`), a different exit — for every
message payload — from the `uploadFailure` exit taken when the upload
invocation itself fails. -/
theorem claim_C4 (stdout : String)
    (h : scan false "RequestUUID = ".data stdout.data = none) :
    startNotarizingPackage (.ok stdout) =
      .parseFailure (submitWrap ("Failed to find request UUID in output:\n\n" ++ stdout)) ∧
    (∀ m1 m2 : String, SubmissionOutcome.parseFailure m1 ≠ SubmissionOutcome.uploadFailure m2) ∧
    (∀ m : String, startNotarizingPackage (.err m) = .uploadFailure (submitWrap m)) := by
  refine ⟨?_, fun m1 m2 => by simp, fun m => rfl⟩
  show (match scan false "RequestUUID = ".data stdout.data with
    | some g => SubmissionOutcome.uuid (String.mk g)
    | none =>
      .parseFailure (submitWrap ("Failed to find request UUID in output:\n\n" ++ stdout))) =
    .parseFailure (submitWrap ("Failed to find request UUID in output:\n\n" ++ stdout))
  rw [h]

/-- Witness for C4: an stdout whose other fields would parse successfully
but which has no RequestUUID line fails with the parse-failure exit. -/
theorem claim_C4_witness :
    startNotarizingPackage (.ok fieldsNoUuidText) =
      .parseFailure (submitWrap ("Failed to find request UUID in output:\n\n" ++ fieldsNoUuidText)) ∧
    (parseNotarizationInfo fieldsNoUuidText).status = some "success" :=
  ⟨(claim_C4 fieldsNoUuidText rfl).1, rfl⟩

/-- C5 counterexample: on a `Status Code:` line carrying a non-numeric
value, the parser does NOT leave the status-code field absent as the claim
states: the field is present, holding the `NaN` result of `parseInt`
(while the other fields do parse). -/
theorem claim_C5_counterexample :
    (parseNotarizationInfo notIntText).statusCode ≠ none ∧
    (parseNotarizationInfo notIntText).statusCode = some none ∧
    (parseNotarizationInfo notIntText).status = some "invalid" ∧
    (parseNotarizationInfo notIntText).statusMessage = some "mmm" :=
  ⟨by decide, rfl, rfl, rfl⟩

/-- C5 (amended): for every value `v` on the `Status Code:` line of a
response carrying the other fields, the parser sets the status-code field to
the result of base-10 `parseInt` — the present `NaN` marker when `v` has no
leading integer, the integer itself when it does — while all other present
fields still parse to their literal values. -/
theorem claim_C5 (v : String) (hne : v ≠ "") (hv : ∀ c ∈ v.data, c ≠ '\n') :
    (parseNotarizationInfo (scTemplate v)).statusCode = some (jsParseInt v.data) ∧
    (parseNotarizationInfo (scTemplate v)).uuid = some "r-1" ∧
    (parseNotarizationInfo (scTemplate v)).date = some ⟨"today"⟩ ∧
    (parseNotarizationInfo (scTemplate v)).status = some "invalid" ∧
    (parseNotarizationInfo (scTemplate v)).logFileUrl = some none ∧
    (parseNotarizationInfo (scTemplate v)).statusMessage = none := by
  have hvd : v.data ≠ [] := by
    intro hd
    apply hne
    cases v with
    | mk l =>
      simp only [String.data] at hd
      rw [hd]
  have hlines : ∀ l ∈ scTemplateLines v, ∀ c ∈ l, c ≠ '\n' := by
    intro l hl
    simp only [scTemplateLines, List.mem_cons, List.not_mem_nil, or_false] at hl
    rcases hl with rfl | rfl | rfl | rfl | rfl
    · decide
    · decide
    · decide
    · decide
    · intro c hc
      rcases List.mem_append.mp hc with hcc | hcc
      · exact (show ∀ c ∈ "Status Code: ".data, c ≠ '\n' by decide) c hcc
      · exact hv c hcc
  have h5 : scan true "Status Code: ".data (docJoin (scTemplateLines v)) = some v.data := by
    rw [scan_doc true "Status Code: ".data (by decide) (scTemplateLines v) hlines]
    have hlast : lineMatch true "Status Code: ".data ("Status Code: ".data ++ v.data) =
        some v.data := by
      show (if v.data = [] then none else some v.data) = some v.data
      rw [if_neg hvd]
    simp only [scTemplateLines, List.map_cons, List.map_nil, hlast]
    rfl
  have h6 : scan true "Status Message: ".data (docJoin (scTemplateLines v)) = none := by
    rw [scan_doc true "Status Message: ".data (by decide) (scTemplateLines v) hlines]
    rfl
  have h1 : scan true "RequestUUID: ".data (docJoin (scTemplateLines v)) = some "r-1".data := by
    rw [scan_doc true "RequestUUID: ".data (by decide) (scTemplateLines v) hlines]
    rfl
  have h2 : scan true "Date: ".data (docJoin (scTemplateLines v)) = some "today".data := by
    rw [scan_doc true "Date: ".data (by decide) (scTemplateLines v) hlines]
    rfl
  have h3 : scan true "Status: ".data (docJoin (scTemplateLines v)) = some "invalid".data := by
    rw [scan_doc true "Status: ".data (by decide) (scTemplateLines v) hlines]
    rfl
  have h4 : scan true "LogFileURL: ".data (docJoin (scTemplateLines v)) = some "(null)".data := by
    rw [scan_doc true "LogFileURL: ".data (by decide) (scTemplateLines v) hlines]
    rfl
  refine ⟨?_, ?_, ?_, ?_, ?_, ?_⟩
  · show (scan true "Status Code: ".data (docJoin (scTemplateLines v))).map
      (fun g => jsParseInt g) = some (jsParseInt v.data)
    rw [h5]
    rfl
  · show (scan true "RequestUUID: ".data (docJoin (scTemplateLines v))).map
      (fun g => String.mk g) = some "r-1"
    rw [h1]
    rfl
  · show (scan true "Date: ".data (docJoin (scTemplateLines v))).map
      (fun g => JsDate.mk (String.mk g)) = some ⟨"today"⟩
    rw [h2]
    rfl
  · show (scan true "Status: ".data (docJoin (scTemplateLines v))).map
      (fun g => String.mk g) = some "invalid"
    rw [h3]
    rfl
  · show (match (scan true "LogFileURL: ".data (docJoin (scTemplateLines v))).map
        (fun g => String.mk g) with
      | none => none
      | some s => if s = "(null)" then some none else some (some s)) = some none
    rw [h4]
    rfl
  · show (scan true "Status Message: ".data (docJoin (scTemplateLines v))).map
      (fun g => String.mk g) = none
    rw [h6]
    rfl

/-- Witness for C5 at the non-numeric value `abc` (statusCode is present,
holding the `NaN` marker `jsParseInt "abc".data = none`). -/
theorem claim_C5_witness :
    (parseNotarizationInfo (scTemplate "abc")).statusCode = some (jsParseInt "abc".data) ∧
    (parseNotarizationInfo (scTemplate "abc")).status = some "invalid" :=
  ⟨(claim_C5 "abc" (by decide) (by decide)).1, (claim_C5 "abc" (by decide) (by decide)).2.2.2.1⟩

/-- C6 counterexample: on interactive-account credentials the signed
variant's authorizing-args function supplies only the username and password
flags — no provider flag pair — refuting the claim that interactive-account
mode supplies username, password and provider flags; the unsigned variant's
function does supply the `--asc-provider` pair. -/
theorem claim_C6_counterexample :
    getAuthorizingArgs_index interactiveOpts =
      [some "--username", some "user@example.com", some "--password", some "pw"] ∧
    some "--asc-provider" ∉ getAuthorizingArgs_index interactiveOpts ∧
    getAuthorizingArgs_unnamed interactiveOpts =
      [some "--username", some "user@example.com", some "--password", some "pw",
       some "--asc-provider", some "TEAM1"] := by
  refine ⟨rfl, ?_, rfl⟩
  decide

/-- C6 (amended): each variant's authorizing-args function produces exactly
one of its two authorization argument sets — the interactive set when the
Apple ID is truthy, the service set otherwise — where the unsigned variant's
interactive set carries the `--asc-provider` provider pair and the signed
variant's does not; and a truthy team short name appends the same
`-itc_provider` flag pair to the upload invocation in both variants,
regardless of credential variant. -/
theorem claim_C6 (o : NotarizeOpts) (appId pkgPath : String) :
    (getAuthorizingArgs_index o = interactiveArgsIndexSpec o ∨
      getAuthorizingArgs_index o = apiArgsSpec o) ∧
    interactiveArgsIndexSpec o ≠ apiArgsSpec o ∧
    (getAuthorizingArgs_unnamed o = interactiveArgsUnnamedSpec o ∨
      getAuthorizingArgs_unnamed o = apiArgsSpec o) ∧
    interactiveArgsUnnamedSpec o ≠ apiArgsSpec o ∧
    (truthy o.teamShortName = true →
      uploadArgs_index appId pkgPath o =
        uploadArgs_index appId pkgPath (dropTeamShortName o) ++
          [some "-itc_provider", o.teamShortName] ∧
      uploadArgs_unnamed appId pkgPath o =
        uploadArgs_unnamed appId pkgPath (dropTeamShortName o) ++
          [some "-itc_provider", o.teamShortName]) := by
  refine ⟨?_, ?_, ?_, ?_, ?_⟩
  · by_cases h : truthy o.appleId
    · exact Or.inl (by simp [getAuthorizingArgs_index, interactiveArgsIndexSpec, h])
    · exact Or.inr (by simp [getAuthorizingArgs_index, apiArgsSpec, h])
  · intro h
    have h0 := congrArg (fun l => l.head?) h
    simp only [interactiveArgsIndexSpec, apiArgsSpec, List.head?] at h0
    have h1 : ("--username" : String) = "--apiKey" := by
      injection h0 with h2
      injection h2
    exact absurd h1 (by decide)
  · by_cases h : truthy o.appleId
    · exact Or.inl (by simp [getAuthorizingArgs_unnamed, interactiveArgsUnnamedSpec, h])
    · exact Or.inr (by simp [getAuthorizingArgs_unnamed, apiArgsSpec, h])
  · intro h
    have h0 := congrArg List.length h
    simp [interactiveArgsUnnamedSpec, apiArgsSpec] at h0
  · intro htsn
    constructor
    · simp [uploadArgs_index, dropTeamShortName, getAuthorizingArgs_index, truthy_none, htsn]
    · simp [uploadArgs_unnamed, dropTeamShortName, getAuthorizingArgs_unnamed, truthy_none, htsn]

/-- Witness for C6 at concrete interactive credentials with a team short
name: the upload invocation is the team-name-free invocation plus the
`-itc_provider` pair, in the unsigned variant. -/
theorem claim_C6_witness :
    uploadArgs_unnamed "com.app" "/b/app.pkg" interactiveOpts =
      uploadArgs_unnamed "com.app" "/b/app.pkg" (dropTeamShortName interactiveOpts) ++
        [some "-itc_provider", some "short"] :=
  ((claim_C6 interactiveOpts "com.app" "/b/app.pkg").2.2.2.2 (by decide)).2

/-- C7: parsing a synthetic response carrying all six recognized fields
yields exactly the literal field values, with the status code parsed as an
integer and the `(null)` log URL normalized to the explicit null value. -/
theorem claim_C7 :
    parseNotarizationInfo roundTripText =
      { uuid := some "abc-123", date := some ⟨"2019-09-19 19:50:00 +0000"⟩,
        status := some "success", logFileUrl := some none,
        statusCode := some (some 7), statusMessage := some "Package Approved" } :=
  rfl

/-- C8 counterexample: an `invalid` response whose parsed status code is the
integer `0` raises the rejection error carrying the fragment `No Code`
rather than the parsed status code, because the source interpolates
`statusCode || 'No Code'` and `0` is falsy — refuting the claim that the
error carries exactly the parsed status code. -/
theorem claim_C8_counterexample :
    waitForNotarize_unnamed "u-1" 1 [.ok invalidZeroText] =
      some ([.query "u-1"],
        .error (.rejected "No Code" "Oops" "https://log.example/x"), []) ∧
    (parseNotarizationInfo invalidZeroText).statusCode = some (some 0) ∧
    "No Code" ≠ toString (0 : Int) :=
  ⟨rfl, rfl, by decide⟩

/-- C8 (amended): a response parsing to status `invalid` makes the poller
(either variant) terminate at once with the rejection error carrying the
parsed status code, message and log URL as rendered by the source's
interpolation (`No Code`/`No Message` for falsy code and message, the
JS rendering of the log URL) — in particular exactly the parsed values for
status code 2, message `Package Invalid` and a present log URL — and any
parsed status other than in progress, invalid and success terminates with
the unrecognized-status error carrying the raw status string. -/
theorem claim_C8 (stdout : String) (rest : Script) (fuel : Nat) (uuid : String) :
    ((parseNotarizationInfo stdout).status = some "invalid" →
      waitForNotarize_unnamed uuid (fuel + 1) (.ok stdout :: rest) =
        some ([.query uuid], .error (.rejected
          (codeDisplay (parseNotarizationInfo stdout).statusCode)
          (msgDisplay (parseNotarizationInfo stdout).statusMessage)
          (logDisplay (parseNotarizationInfo stdout).logFileUrl)), rest) ∧
      waitForNotarize_index uuid (fuel + 1) (.ok stdout :: rest) =
        some ([.query uuid], .error (.rejected
          (codeDisplay (parseNotarizationInfo stdout).statusCode)
          (msgDisplay (parseNotarizationInfo stdout).statusMessage)
          (logDisplay (parseNotarizationInfo stdout).logFileUrl)), rest)) ∧
    (∀ s : String, (parseNotarizationInfo stdout).status = some s →
      s ≠ "in progress" → s ≠ "invalid" → s ≠ "success" →
      waitForNotarize_unnamed uuid (fuel + 1) (.ok stdout :: rest) =
        some ([.query uuid], .error (.unrecognized s), rest) ∧
      waitForNotarize_index uuid (fuel + 1) (.ok stdout :: rest) =
        some ([.query uuid], .error (.unrecognized s), rest)) := by
  have hwu : waitForNotarize_unnamed uuid (fuel + 1) (.ok stdout :: rest) =
      (if (parseNotarizationInfo stdout).status = some "in progress" then
        match waitForNotarize_unnamed uuid fuel rest with
        | none => none
        | some (tr, out, rem) => some (.query uuid :: .wait 30000 :: tr, out, rem)
      else some ([.query uuid], checkTerminal (parseNotarizationInfo stdout), rest)) := rfl
  have hwi : waitForNotarize_index uuid (fuel + 1) (.ok stdout :: rest) =
      (if (parseNotarizationInfo stdout).status = some "in progress" then
        match waitForNotarize_index uuid fuel rest with
        | none => none
        | some (tr, out, rem) =>
          match out with
          | .error e => some (.query uuid :: .wait 30000 :: tr, .error e, rem)
          | .ok () => some (.query uuid :: .wait 30000 :: tr,
              checkTerminal (parseNotarizationInfo stdout), rem)
      else some ([.query uuid], checkTerminal (parseNotarizationInfo stdout), rest)) := rfl
  constructor
  · intro h
    have hcond : ¬ ((parseNotarizationInfo stdout).status = some "in progress") := by
      rw [h]; decide
    have hct : checkTerminal (parseNotarizationInfo stdout) =
        .error (.rejected (codeDisplay (parseNotarizationInfo stdout).statusCode)
          (msgDisplay (parseNotarizationInfo stdout).statusMessage)
          (logDisplay (parseNotarizationInfo stdout).logFileUrl)) := by
      unfold checkTerminal
      rw [if_pos h]
    rw [hwu, hwi, if_neg hcond, if_neg hcond, hct]
    exact ⟨rfl, rfl⟩
  · intro s hs h1 h2 h3
    have hcond : ¬ ((parseNotarizationInfo stdout).status = some "in progress") := by
      rw [hs]
      simpa using h1
    have hct : checkTerminal (parseNotarizationInfo stdout) = .error (.unrecognized s) := by
      unfold checkTerminal
      rw [hs]
      rw [if_neg (by simpa using h2)]
      rw [if_pos (by simpa using h3)]
      rfl
    rw [hwu, hwi, if_neg hcond, if_neg hcond, hct]
    exact ⟨rfl, rfl⟩

/-- Witness for C8 at the claim's instance: status `invalid`, status code
`2`, message `Package Invalid`, a present log URL — the rejection error
carries exactly those three values. -/
theorem claim_C8_witness :
    waitForNotarize_unnamed "u-1" 1 [.ok invalidTwoText] =
      some ([.query "u-1"],
        .error (.rejected "2" "Package Invalid" "https://log.example/x"), []) :=
  ((claim_C8 invalidTwoText [] 0 "u-1").1 rfl).1

/-- C9: a failed status query is never surfaced: for any number of
consecutive query failures, either variant of the poller contributes one
query for the unchanged request identifier plus one fixed 30000 ms delay per
failure to the trace and then behaves exactly as the poller on the rest of
the script — the eventual outcome is untouched, and the retry count is
unbounded. -/
theorem claim_C9 :
    (∀ (msgs : List String) (uuid : String) (fuel : Nat) (script : Script),
      waitForNotarize_unnamed uuid (fuel + msgs.length) (msgs.map ExecResult.err ++ script) =
        (waitForNotarize_unnamed uuid fuel script).map
          (fun p => (retrySteps uuid msgs.length ++ p.1, p.2))) ∧
    (∀ (msgs : List String) (uuid : String) (fuel : Nat) (script : Script),
      waitForNotarize_index uuid (fuel + msgs.length) (msgs.map ExecResult.err ++ script) =
        (waitForNotarize_index uuid fuel script).map
          (fun p => (retrySteps uuid msgs.length ++ p.1, p.2))) :=
  ⟨waitRetry_unnamed, waitRetry_index⟩

/-- C10: the request-identifier extraction succeeds only when the
`RequestUUID = value` line is preceded and followed by a newline in the
upload tool's stdout (first conjunct); an output whose matching line is the
very first line with no preceding newline, or the very last line with no
trailing newline, fails with the missing-identifier error even though the
line is present, while the newline-enclosed line extracts. -/
theorem claim_C10 :
    (∀ stdout g : List Char,
      scan false "RequestUUID = ".data stdout = some g →
      ∃ pre post, stdout = pre ++ '\n' :: ("RequestUUID = ".data ++ (g ++ '\n' :: post))) ∧
    startNotarizingPackage (.ok "RequestUUID = ABC-123") =
      .parseFailure (submitWrap "Failed to find request UUID in output:\n\nRequestUUID = ABC-123") ∧
    startNotarizingPackage (.ok "foo\nRequestUUID = ABC-123") =
      .parseFailure
        (submitWrap "Failed to find request UUID in output:\n\nfoo\nRequestUUID = ABC-123") ∧
    startNotarizingPackage (.ok "foo\nRequestUUID = ABC-123\n") = .uuid "ABC-123" :=
  ⟨fun stdout g h => scan_sound stdout g h, rfl, rfl, rfl⟩

/-- Witness for C10: the successful extraction from a newline-enclosed line
exhibits the newline-delimited decomposition. -/
theorem claim_C10_witness :
    ∃ pre post, "foo\nRequestUUID = ABC-123\n".data =
      pre ++ '\n' :: ("RequestUUID = ".data ++ ("ABC-123".data ++ '\n' :: post)) :=
  claim_C10.1 "foo\nRequestUUID = ABC-123\n".data "ABC-123".data rfl

end EBN
